import Mathlib

/-!
# TCP socket wrapper (`components/network/tcp/iot_tcp.cpp`)

Shallow embedding of the two handle classes `CTcpConn` and `CTcpServer`.

* A handle is a record of its two `int` fields `sockfd` and `tout`.  No arithmetic is
  performed on them, so they are carried as `Int` (every value the code stores is either a
  literal or a value returned by a socket call).
* The socket layer (lwIP) is not part of the source file.  It is a parameter `Env`: the result
  of every socket call may depend on the call, its arguments and on everything that was issued
  before (`Trace`), so two identical calls may answer differently.
* Every method takes the history `tr` of calls issued before it started and returns its return
  value, the handle afterwards and the list of calls it issued itself, each with the value the
  socket layer answered (`Out`).
* `ESP_LOGx` statements only write to the log and are left out.  Received bytes written into
  the caller's buffer by `recv` are not modelled; only the `int` result is.
-/

namespace IotTcp

/-- The `struct sockaddr_in` the wrapper fills in before `connect` and `bind`. -/
structure sockaddr_in where
  sin_len : Nat
  sin_family : Nat
  sin_port : Nat
  sin_addr : Nat
deriving DecidableEq

/-- Address family constant of lwIP. -/
def AF_INET : Nat := 2

/-- Wildcard address of lwIP. -/
def INADDR_ANY : Nat := 0

/-- Value of `sizeof(struct sockaddr_in)` in lwIP. -/
def sizeof_sockaddr_in : Nat := 16

/-- One call into the socket layer, with the arguments that vary between calls.
`socket` is always `socket(AF_INET, SOCK_STREAM, 0)`, `setsockopt` is always
`SOL_SOCKET / SO_RCVTIMEO` with `tv_usec = 0`, `recv` and `send` always pass flags `0`,
`accept` always passes null address pointers. -/
inductive Call where
  | socket
  | connect (s : Int) (name : sockaddr_in)
  | setsockopt (s : Int) (tv_sec : Int)
  | recv (s : Int) (len : Int)
  | send (s : Int) (data : List Nat) (len : Int)
  | close (s : Int)
  | bind (s : Int) (name : sockaddr_in)
  | listen (s : Int) (backlog : Int)
  | accept (s : Int)
deriving DecidableEq

/-- The descriptor argument of a call (`socket` has none). -/
def Call.fd : Call → Option Int
  | .socket => none
  | .connect s _ => some s
  | .setsockopt s _ => some s
  | .recv s _ => some s
  | .send s _ _ => some s
  | .close s => some s
  | .bind s _ => some s
  | .listen s _ => some s
  | .accept s => some s

/-- A call together with the value the socket layer returned for it. -/
abbrev Event := Call × Int

/-- Calls issued so far, oldest first. -/
abbrev Trace := List Event

/-- The socket layer and the two pure lwIP helpers used by the wrapper.
`sys tr c` is the `int` returned by call `c` when `tr` was issued before it.
`inet_pton s` is the return code of `inet_pton(AF_INET, s, &addr)` and the address written.
`htons` is the host-to-network conversion of a 16-bit port. -/
structure Env where
  sys : Trace → Call → Int
  inet_pton : String → Int × Nat
  htons : Nat → Nat

/-- Result of a method: return value, handle afterwards, calls issued by the method. -/
structure Out (ρ σ : Type) where
  ret : ρ
  self : σ
  evs : Trace

/-- Fields of `class CTcpConn`. -/
structure CTcpConn where
  sockfd : Int
  tout : Int
deriving DecidableEq

/-- Fields of `class CTcpServer`. -/
structure CTcpServer where
  sockfd : Int
  tout : Int
deriving DecidableEq

/-- Constructor `CTcpConn::CTcpConn(int sock)`. -/
def CTcpConn.ctor (sock : Int) : CTcpConn :=
  { tout := 0, sockfd := sock }

/-- Destructor `CTcpConn::~CTcpConn()`: `close(sockfd); sockfd = -1;`. -/
def CTcpConn.dtor (env : Env) (tr : Trace) (self : CTcpConn) : Out Unit CTcpConn :=
  let k := Call.close self.sockfd
  ⟨(), { self with sockfd := -1 }, [(k, env.sys tr k)]⟩

/-- Method `int CTcpConn::connect(const char* ip, uint16_t port)`. -/
def CTcpConn.connect (env : Env) (tr : Trace) (self : CTcpConn) (ip : String) (port : Nat) :
    Out Int CTcpConn :=
  let s1 : CTcpConn × Trace :=
    if self.sockfd < 0 then
      let fd := env.sys tr Call.socket
      ({ self with sockfd := fd }, [(Call.socket, fd)])
    else (self, [])
  let pt := env.inet_pton ip
  let servaddr : sockaddr_in :=
    { sin_len := 0, sin_family := AF_INET, sin_port := env.htons port, sin_addr := pt.2 }
  let ret := pt.1
  if ret ≤ 0 then
    ⟨ret, s1.1, s1.2⟩
  else
    let c := Call.connect s1.1.sockfd servaddr
    let ret := env.sys (tr ++ s1.2) c
    if ret < 0 then
      let k := Call.close s1.1.sockfd
      ⟨ret, { s1.1 with sockfd := -1 }, s1.2 ++ [(c, ret), (k, env.sys (tr ++ s1.2 ++ [(c, ret)]) k)]⟩
    else
      ⟨ret, s1.1, s1.2 ++ [(c, ret)]⟩

/-- Method `int CTcpConn::connect(uint32_t ip, uint16_t port)`. -/
def CTcpConn.connect_uint32 (env : Env) (tr : Trace) (self : CTcpConn) (ip : Nat) (port : Nat) :
    Out Int CTcpConn :=
  let s1 : CTcpConn × Trace :=
    if self.sockfd < 0 then
      let fd := env.sys tr Call.socket
      ({ self with sockfd := fd }, [(Call.socket, fd)])
    else (self, [])
  let servaddr : sockaddr_in :=
    { sin_len := 0, sin_family := AF_INET, sin_port := env.htons port, sin_addr := ip }
  let c := Call.connect s1.1.sockfd servaddr
  let ret := env.sys (tr ++ s1.2) c
  if ret < 0 then
    let k := Call.close s1.1.sockfd
    ⟨ret, { s1.1 with sockfd := -1 }, s1.2 ++ [(c, ret), (k, env.sys (tr ++ s1.2 ++ [(c, ret)]) k)]⟩
  else
    ⟨ret, s1.1, s1.2 ++ [(c, ret)]⟩

/-- Method `int CTcpConn::set_timeout(int timeout)`. -/
def CTcpConn.set_timeout (env : Env) (tr : Trace) (self : CTcpConn) (timeout : Int) :
    Out Int CTcpConn :=
  if self.sockfd < 0 then
    ⟨-1, self, []⟩
  else
    let self1 : CTcpConn := { self with tout := timeout }
    let c := Call.setsockopt self1.sockfd timeout
    let ret := env.sys tr c
    if ret < 0 then
      let k := Call.close self1.sockfd
      ⟨ret, { self1 with sockfd := -1 }, [(c, ret), (k, env.sys (tr ++ [(c, ret)]) k)]⟩
    else
      ⟨ret, self1, [(c, ret)]⟩

/-- Method `int CTcpConn::read(uint8_t* data, int length, int timeout)`. -/
def CTcpConn.read (env : Env) (tr : Trace) (self : CTcpConn) (length : Int) (timeout : Int) :
    Out Int CTcpConn :=
  if self.sockfd < 0 then
    ⟨-1, self, []⟩
  else if 0 < timeout then
    let st := CTcpConn.set_timeout env tr self timeout
    if st.ret < 0 then
      ⟨st.ret, st.self, st.evs⟩
    else
      let c := Call.recv st.self.sockfd length
      let ret := env.sys (tr ++ st.evs) c
      ⟨ret, st.self, st.evs ++ [(c, ret)]⟩
  else
    let c := Call.recv self.sockfd length
    let ret := env.sys tr c
    ⟨ret, self, [(c, ret)]⟩

/-- Method `int CTcpConn::write(const uint8_t *data, int length)`. -/
def CTcpConn.write (env : Env) (tr : Trace) (self : CTcpConn) (data : List Nat) (length : Int) :
    Out Int CTcpConn :=
  if self.sockfd < 0 then
    ⟨-1, self, []⟩
  else
    let c := Call.send self.sockfd data length
    let ret := env.sys tr c
    if ret < 0 then
      let k := Call.close self.sockfd
      ⟨ret, { self with sockfd := -1 }, [(c, ret), (k, env.sys (tr ++ [(c, ret)]) k)]⟩
    else
      ⟨ret, self, [(c, ret)]⟩

/-- Method `int CTcpConn::disconnect()`. -/
def CTcpConn.disconnect (env : Env) (tr : Trace) (self : CTcpConn) : Out Int CTcpConn :=
  let k := Call.close self.sockfd
  let ret := env.sys tr k
  ⟨ret, { self with sockfd := -1 }, [(k, ret)]⟩

/-- Constructor `CTcpServer::CTcpServer()`. -/
def CTcpServer.ctor : CTcpServer :=
  { tout := 0, sockfd := -1 }

/-- The part of `CTcpServer::listen` from the `bind` call to the end of the function, entered
with the handle `self` (descriptor already present or just created) after the calls `pre` of
the socket creation step. -/
def CTcpServer.listen_bind (env : Env) (tr : Trace) (self : CTcpServer) (pre : Trace)
    (server_addr : sockaddr_in) (max_connection : Int) : Out Int CTcpServer :=
  let b := Call.bind self.sockfd server_addr
  let ret := env.sys (tr ++ pre) b
  if ret ≠ 0 then
    let k := Call.close self.sockfd
    ⟨-1, { self with sockfd := -1 }, pre ++ [(b, ret), (k, env.sys (tr ++ pre ++ [(b, ret)]) k)]⟩
  else
    let l := Call.listen self.sockfd max_connection
    let ret2 := env.sys (tr ++ pre ++ [(b, ret)]) l
    if ret2 ≠ 0 then
      let k := Call.close self.sockfd
      ⟨-1, { self with sockfd := -1 },
        pre ++ [(b, ret), (l, ret2), (k, env.sys (tr ++ pre ++ [(b, ret), (l, ret2)]) k)]⟩
    else
      ⟨0, self, pre ++ [(b, ret), (l, ret2)]⟩

/-- Method `int CTcpServer::listen(uint16_t port, int max_connection)`. -/
def CTcpServer.listen (env : Env) (tr : Trace) (self : CTcpServer) (port : Nat)
    (max_connection : Int) : Out Int CTcpServer :=
  let server_addr : sockaddr_in :=
    { sin_len := sizeof_sockaddr_in, sin_family := AF_INET, sin_port := env.htons port,
      sin_addr := INADDR_ANY }
  if self.sockfd < 0 then
    let fd := env.sys tr Call.socket
    if fd < 0 then
      ⟨-1, { self with sockfd := fd }, [(Call.socket, fd)]⟩
    else
      CTcpServer.listen_bind env tr { self with sockfd := fd } [(Call.socket, fd)] server_addr
        max_connection
  else
    CTcpServer.listen_bind env tr self [] server_addr max_connection

/-- Method `CTcpConn* CTcpServer::accept()`; `NULL` is `none`. -/
def CTcpServer.accept (env : Env) (tr : Trace) (self : CTcpServer) :
    Out (Option CTcpConn) CTcpServer :=
  if self.sockfd < 0 then
    ⟨none, self, []⟩
  else
    let a := Call.accept self.sockfd
    let connect_fd := env.sys tr a
    if connect_fd = -1 then
      ⟨none, self, [(a, connect_fd)]⟩
    else
      ⟨some (CTcpConn.ctor connect_fd), self, [(a, connect_fd)]⟩

/-- Method `void CTcpServer::stop()`. -/
def CTcpServer.stop (env : Env) (tr : Trace) (self : CTcpServer) : Out Unit CTcpServer :=
  if 0 < self.sockfd then
    let k := Call.close self.sockfd
    ⟨(), self, [(k, env.sys tr k)]⟩
  else
    ⟨(), self, []⟩

/-- Destructor `CTcpServer::~CTcpServer()`: calls `stop()`. -/
def CTcpServer.dtor (env : Env) (tr : Trace) (self : CTcpServer) : Out Unit CTcpServer :=
  CTcpServer.stop env tr self

/-! ## Intermediate values of a run, used to state the properties -/

/-- Descriptor held after the creation step `if (sockfd < 0) sockfd = socket(...)` that opens
`connect` and `listen`, started with stored descriptor `sockfd` after history `tr`. -/
def created_fd (env : Env) (tr : Trace) (sockfd : Int) : Int :=
  if sockfd < 0 then env.sys tr Call.socket else sockfd

/-- Calls issued by that creation step. -/
def created_evs (env : Env) (tr : Trace) (sockfd : Int) : Trace :=
  if sockfd < 0 then [(Call.socket, env.sys tr Call.socket)] else []

/-- The address `listen` binds to. -/
def listen_addr (env : Env) (port : Nat) : sockaddr_in :=
  { sin_len := sizeof_sockaddr_in, sin_family := AF_INET, sin_port := env.htons port,
    sin_addr := INADDR_ANY }

/-- The `bind` call of `listen`. -/
def bind_call (env : Env) (tr : Trace) (self : CTcpServer) (port : Nat) : Call :=
  Call.bind (created_fd env tr self.sockfd) (listen_addr env port)

/-- Answer of the socket layer to the `bind` call of `listen`. -/
def bind_answer (env : Env) (tr : Trace) (self : CTcpServer) (port : Nat) : Int :=
  env.sys (tr ++ created_evs env tr self.sockfd) (bind_call env tr self port)

/-- The `listen` call of `listen`. -/
def listen_call (env : Env) (tr : Trace) (self : CTcpServer) (backlog : Int) : Call :=
  Call.listen (created_fd env tr self.sockfd) backlog

/-- Answer of the socket layer to the `listen` call, issued after a `bind` that answered 0. -/
def listen_answer (env : Env) (tr : Trace) (self : CTcpServer) (port : Nat) (backlog : Int) :
    Int :=
  env.sys (tr ++ created_evs env tr self.sockfd ++ [(bind_call env tr self port, 0)])
    (listen_call env tr self backlog)

/-- The address `connect` passes for parsed or binary address `addr`. -/
def connect_addr (env : Env) (port : Nat) (addr : Nat) : sockaddr_in :=
  { sin_len := 0, sin_family := AF_INET, sin_port := env.htons port, sin_addr := addr }

/-- The `connect` call of both `connect` overloads. -/
def connect_call (env : Env) (tr : Trace) (self : CTcpConn) (port : Nat) (addr : Nat) : Call :=
  Call.connect (created_fd env tr self.sockfd) (connect_addr env port addr)

/-- Answer of the socket layer to the `connect` call. -/
def connect_answer (env : Env) (tr : Trace) (self : CTcpConn) (port : Nat) (addr : Nat) : Int :=
  env.sys (tr ++ created_evs env tr self.sockfd) (connect_call env tr self port addr)

/-- No call in the list carries a negative descriptor argument. -/
def no_negative_fd (evs : Trace) : Bool :=
  evs.all fun e => match e.1.fd with
    | some s => decide (0 ≤ s)
    | none => true

/-! ## Concrete socket layers used to evaluate the methods -/

/-- Byte swap of a 16-bit value (little-endian host). -/
def swap16 (p : Nat) : Nat := (p % 256) * 256 + (p / 256) % 256

/-- A socket layer that answers every call by a function of the call alone; every address
text parses (to 127.0.0.1) and ports are byte-swapped. -/
def envConst (f : Call → Int) : Env :=
  { sys := fun _ c => f c,
    inet_pton := fun _ => (1, 16777343),
    htons := swap16 }

/-- A socket layer whose `socket` answers 3, whose `connect` is refused with -1 and whose
other calls answer 0. -/
def envRefused : Env :=
  envConst fun c => match c with
    | .socket => 3
    | .connect _ _ => -1
    | _ => 0

/-- A healthy socket layer: `socket` answers 3, `accept` answers 4, `recv` delivers 0 bytes
(peer closed), `send` takes one byte only, the other calls answer 0. -/
def envShort : Env :=
  envConst fun c => match c with
    | .socket => 3
    | .accept _ => 4
    | .send _ _ _ => 1
    | _ => 0

/-- A socket layer on which `setsockopt`, `send`, `recv`, `bind` and `listen` fail with -1; `socket`
answers 3 and the other calls 0. -/
def envDown : Env :=
  envConst fun c => match c with
    | .socket => 3
    | .setsockopt _ _ => -1
    | .send _ _ _ => -1
    | .recv _ _ => -1
    | .bind _ _ => -1
    | .listen _ _ => -1
    | _ => 0

/-- A socket layer that hands out descriptor 0 from `socket` (the first slot of the lwIP
socket table); every other call answers 0. -/
def envZero : Env :=
  envConst fun _ => 0

/-- A socket layer with a listening peer: `socket` answers 3, `connect` answers 0 on a
non-negative descriptor and -1 on a negative one, the other calls answer 0. -/
def envPeer : Env :=
  envConst fun c => match c with
    | .socket => 3
    | .connect s _ => if s < 0 then -1 else 0
    | _ => 0

/-- A healthy socket layer (`socket` answers 3, the other calls 0) whose `inet_pton` accepts
the text `127.0.0.1` only and answers 0 (not a valid address) for every other text. -/
def envStrict : Env :=
  { sys := fun _ c => match c with
      | .socket => 3
      | _ => 0,
    inet_pton := fun s => if s = "127.0.0.1" then (1, 16777343) else (0, 0),
    htons := swap16 }

/-- A socket layer that is out of descriptors and rejects every call with -1. -/
def envExhausted : Env :=
  envConst fun _ => -1

/-! ## Connection handle: fail-fast on an invalidated descriptor -/

/-- C2: `disconnect()` leaves the stored descriptor equal to -1 whatever `close` answers, and
on every handle whose stored descriptor is negative `read`, `write` and `set_timeout` return
-1, issue no call at all and leave the handle (descriptor and timeout) unchanged. -/
theorem disconnect_then_fail_fast (env : Env) (tr : Trace) (self : CTcpConn) :
    (self.disconnect env tr).self.sockfd = -1 ∧
    ∀ (h : CTcpConn), h.sockfd < 0 →
      ∀ (tr2 : Trace) (data : List Nat) (length timeout : Int),
        h.read env tr2 length timeout = ⟨-1, h, []⟩ ∧
        h.write env tr2 data length = ⟨-1, h, []⟩ ∧
        h.set_timeout env tr2 timeout = ⟨-1, h, []⟩ := by
  refine ⟨rfl, ?_⟩
  intro h hneg tr2 data length timeout
  simp [CTcpConn.read, CTcpConn.write, CTcpConn.set_timeout, hneg]

/-- Instance of C2: a handle on descriptor 7 is disconnected while `close` answers 0; the handle
left behind has descriptor -1 and a read, a write and a `set_timeout` on it fail fast. -/
theorem disconnect_then_fail_fast_witness :
    (CTcpConn.disconnect envRefused [] ⟨7, 0⟩).self.sockfd = -1 ∧
    (CTcpConn.disconnect envRefused [] ⟨7, 0⟩).self.sockfd < 0 ∧
    CTcpConn.read envRefused [(.close 7, 0)] (CTcpConn.disconnect envRefused [] ⟨7, 0⟩).self 2 5
      = ⟨-1, (CTcpConn.disconnect envRefused [] ⟨7, 0⟩).self, []⟩ ∧
    CTcpConn.write envRefused [(.close 7, 0)] (CTcpConn.disconnect envRefused [] ⟨7, 0⟩).self
      [1, 2] 2 = ⟨-1, (CTcpConn.disconnect envRefused [] ⟨7, 0⟩).self, []⟩ ∧
    CTcpConn.set_timeout envRefused [(.close 7, 0)]
      (CTcpConn.disconnect envRefused [] ⟨7, 0⟩).self 5
      = ⟨-1, (CTcpConn.disconnect envRefused [] ⟨7, 0⟩).self, []⟩ :=
  ⟨(disconnect_then_fail_fast envRefused [] ⟨7, 0⟩).1, by decide,
    (disconnect_then_fail_fast envRefused [] ⟨7, 0⟩).2
      (CTcpConn.disconnect envRefused [] ⟨7, 0⟩).self (by decide) [(.close 7, 0)] [1, 2] 2 5⟩

/-! ## Connection handle: single call, tear-down on failure -/

/-- C5: on a handle with a non-negative descriptor, `write` issues exactly one `send` and
`set_timeout` exactly one `setsockopt`, each returns the result of that call; when the result
is negative the only further call is `close` on the descriptor and the stored descriptor
becomes -1; when it is non-negative (a short send included) nothing else is issued and the
stored descriptor is unchanged. -/
theorem write_set_timeout_single_call (env : Env) (tr : Trace) (self : CTcpConn)
    (hv : 0 ≤ self.sockfd) (data : List Nat) (length timeout : Int) :
    ((self.write env tr data length).ret = env.sys tr (.send self.sockfd data length) ∧
      (env.sys tr (.send self.sockfd data length) < 0 →
        (self.write env tr data length).self.sockfd = -1 ∧
        (self.write env tr data length).evs =
          [(.send self.sockfd data length, env.sys tr (.send self.sockfd data length)),
           (.close self.sockfd,
             env.sys (tr ++ [(.send self.sockfd data length,
               env.sys tr (.send self.sockfd data length))]) (.close self.sockfd))]) ∧
      (0 ≤ env.sys tr (.send self.sockfd data length) →
        (self.write env tr data length).self = self ∧
        (self.write env tr data length).evs =
          [(.send self.sockfd data length, env.sys tr (.send self.sockfd data length))])) ∧
    ((self.set_timeout env tr timeout).ret = env.sys tr (.setsockopt self.sockfd timeout) ∧
      (env.sys tr (.setsockopt self.sockfd timeout) < 0 →
        (self.set_timeout env tr timeout).self.sockfd = -1 ∧
        (self.set_timeout env tr timeout).evs =
          [(.setsockopt self.sockfd timeout, env.sys tr (.setsockopt self.sockfd timeout)),
           (.close self.sockfd,
             env.sys (tr ++ [(.setsockopt self.sockfd timeout,
               env.sys tr (.setsockopt self.sockfd timeout))]) (.close self.sockfd))]) ∧
      (0 ≤ env.sys tr (.setsockopt self.sockfd timeout) →
        (self.set_timeout env tr timeout).self.sockfd = self.sockfd ∧
        (self.set_timeout env tr timeout).evs =
          [(.setsockopt self.sockfd timeout,
            env.sys tr (.setsockopt self.sockfd timeout))])) := by
  have hn : ¬ self.sockfd < 0 := not_lt.mpr hv
  refine ⟨⟨?_, ?_, ?_⟩, ⟨?_, ?_, ?_⟩⟩
  · simp only [CTcpConn.write, hn, if_false]
    split <;> rfl
  · intro hr
    simp [CTcpConn.write, hn, hr]
  · intro hr
    simp [CTcpConn.write, hn, not_lt.mpr hr]
  · simp only [CTcpConn.set_timeout, hn, if_false]
    split <;> rfl
  · intro hr
    simp [CTcpConn.set_timeout, hn, hr]
  · intro hr
    simp [CTcpConn.set_timeout, hn, not_lt.mpr hr]

/-- Instance of C5 on descriptor 3: a 3-byte `write` of which the socket layer takes one byte
returns 1 after a single `send` and keeps the handle; a `set_timeout` whose `setsockopt`
fails returns -1, closes descriptor 3 and stores -1. -/
theorem write_set_timeout_single_call_witness :
    (0 : Int) ≤ (CTcpConn.mk 3 0).sockfd ∧
    (CTcpConn.write envShort [] ⟨3, 0⟩ [10, 20, 30] 3).ret = 1 ∧
    (CTcpConn.write envShort [] ⟨3, 0⟩ [10, 20, 30] 3).self = ⟨3, 0⟩ ∧
    (CTcpConn.write envShort [] ⟨3, 0⟩ [10, 20, 30] 3).evs = [(.send 3 [10, 20, 30] 3, 1)] ∧
    (CTcpConn.set_timeout envDown [] ⟨3, 0⟩ 5).ret = -1 ∧
    (CTcpConn.set_timeout envDown [] ⟨3, 0⟩ 5).self.sockfd = -1 ∧
    (CTcpConn.set_timeout envDown [] ⟨3, 0⟩ 5).evs = [(.setsockopt 3 5, -1), (.close 3, 0)] :=
  ⟨by decide,
    (write_set_timeout_single_call envShort [] ⟨3, 0⟩ (by decide) [10, 20, 30] 3 5).1.1,
    ((write_set_timeout_single_call envShort [] ⟨3, 0⟩ (by decide) [10, 20, 30] 3 5).1.2.2
      (by decide)).1,
    ((write_set_timeout_single_call envShort [] ⟨3, 0⟩ (by decide) [10, 20, 30] 3 5).1.2.2
      (by decide)).2,
    (write_set_timeout_single_call envDown [] ⟨3, 0⟩ (by decide) [10, 20, 30] 3 5).2.1,
    ((write_set_timeout_single_call envDown [] ⟨3, 0⟩ (by decide) [10, 20, 30] 3 5).2.2.1
      (by decide)).1,
    ((write_set_timeout_single_call envDown [] ⟨3, 0⟩ (by decide) [10, 20, 30] 3 5).2.2.1
      (by decide)).2⟩

/-- C6: on a handle with a non-negative descriptor, `read` with `timeout > 0` first applies
`set_timeout(timeout)`; when that returns a negative code, `read` returns it, the calls issued
are the failed `setsockopt` and the `close` (no `recv`) and the stored descriptor is -1.
Otherwise (`timeout <= 0`, or the timeout was applied) exactly one `recv` is issued, `read`
returns exactly its result, and the stored descriptor is unchanged whatever that result is. -/
theorem read_single_recv (env : Env) (tr : Trace) (self : CTcpConn) (hv : 0 ≤ self.sockfd)
    (length timeout : Int) :
    (0 < timeout → (self.set_timeout env tr timeout).ret < 0 →
      (self.read env tr length timeout).ret = (self.set_timeout env tr timeout).ret ∧
      (self.read env tr length timeout).self.sockfd = -1 ∧
      (self.read env tr length timeout).evs =
        [(.setsockopt self.sockfd timeout, env.sys tr (.setsockopt self.sockfd timeout)),
         (.close self.sockfd,
           env.sys (tr ++ [(.setsockopt self.sockfd timeout,
             env.sys tr (.setsockopt self.sockfd timeout))]) (.close self.sockfd))]) ∧
    (0 < timeout → 0 ≤ (self.set_timeout env tr timeout).ret →
      (self.read env tr length timeout).ret =
        env.sys (tr ++ [(.setsockopt self.sockfd timeout,
          env.sys tr (.setsockopt self.sockfd timeout))]) (.recv self.sockfd length) ∧
      (self.read env tr length timeout).self.sockfd = self.sockfd ∧
      (self.read env tr length timeout).evs =
        [(.setsockopt self.sockfd timeout, env.sys tr (.setsockopt self.sockfd timeout)),
         (.recv self.sockfd length,
           env.sys (tr ++ [(.setsockopt self.sockfd timeout,
             env.sys tr (.setsockopt self.sockfd timeout))]) (.recv self.sockfd length))]) ∧
    (timeout ≤ 0 →
      (self.read env tr length timeout).ret = env.sys tr (.recv self.sockfd length) ∧
      (self.read env tr length timeout).self = self ∧
      (self.read env tr length timeout).evs =
        [(.recv self.sockfd length, env.sys tr (.recv self.sockfd length))]) := by
  have hn : ¬ self.sockfd < 0 := not_lt.mpr hv
  have hst : (self.set_timeout env tr timeout).ret =
      env.sys tr (.setsockopt self.sockfd timeout) := by
    simp only [CTcpConn.set_timeout, hn, if_false]
    split <;> rfl
  refine ⟨?_, ?_, ?_⟩
  · intro ht hr
    have hr2 := hst ▸ hr
    simp [CTcpConn.read, CTcpConn.set_timeout, hn, ht, hr2]
  · intro ht hr
    have hr2 : ¬ env.sys tr (.setsockopt self.sockfd timeout) < 0 := not_lt.mpr (hst ▸ hr)
    simp [CTcpConn.read, CTcpConn.set_timeout, hn, ht, hr2]
  · intro ht
    simp [CTcpConn.read, hn, not_lt.mpr ht]

/-- Instance of C6 on descriptor 3: with timeout 5 and a failing `setsockopt` the read returns
-1 after `setsockopt` and `close` only and stores -1; with timeout 5 on a healthy socket layer
and with timeout 0 on a failing one a single `recv` is issued, its result (0 for peer closed,
-1 for an error) is returned and descriptor 3 stays stored. -/
theorem read_single_recv_witness :
    (0 : Int) ≤ (CTcpConn.mk 3 0).sockfd ∧
    ((CTcpConn.read envDown [] ⟨3, 0⟩ 16 5).ret = -1 ∧
      (CTcpConn.read envDown [] ⟨3, 0⟩ 16 5).self.sockfd = -1 ∧
      (CTcpConn.read envDown [] ⟨3, 0⟩ 16 5).evs = [(.setsockopt 3 5, -1), (.close 3, 0)]) ∧
    ((CTcpConn.read envShort [] ⟨3, 0⟩ 16 5).ret = 0 ∧
      (CTcpConn.read envShort [] ⟨3, 0⟩ 16 5).self.sockfd = 3 ∧
      (CTcpConn.read envShort [] ⟨3, 0⟩ 16 5).evs = [(.setsockopt 3 5, 0), (.recv 3 16, 0)]) ∧
    ((CTcpConn.read envDown [] ⟨3, 0⟩ 16 0).ret = -1 ∧
      (CTcpConn.read envDown [] ⟨3, 0⟩ 16 0).self = ⟨3, 0⟩ ∧
      (CTcpConn.read envDown [] ⟨3, 0⟩ 16 0).evs = [(.recv 3 16, -1)]) :=
  ⟨by decide,
    (read_single_recv envDown [] ⟨3, 0⟩ (by decide) 16 5).1 (by decide) (by decide),
    (read_single_recv envShort [] ⟨3, 0⟩ (by decide) 16 5).2.1 (by decide) (by decide),
    (read_single_recv envDown [] ⟨3, 0⟩ (by decide) 16 0).2.2 (by decide)⟩

/-! ## Listener handle: accept and stop -/

/-- C4: on a socket layer whose `accept` call answers -1 on failure and a descriptor (a
non-negative value) otherwise, `accept()` returns a handle exactly when the listener's
descriptor is non-negative and the `accept` call answered a non-negative value; every handle
returned owns exactly the descriptor the call answered, which is non-negative, with timeout
field 0; when the listener's descriptor is negative (no call is issued then) or the call
answered a negative value, the result is absent. -/
theorem accept_handle_iff (env : Env) (tr : Trace) (self : CTcpServer)
    (hacc : ∀ (t : Trace) (s : Int), -1 ≤ env.sys t (Call.accept s)) :
    ((self.accept env tr).ret.isSome = true ↔
      0 ≤ self.sockfd ∧ 0 ≤ env.sys tr (.accept self.sockfd)) ∧
    (∀ c, (self.accept env tr).ret = some c →
      c.sockfd = env.sys tr (.accept self.sockfd) ∧ 0 ≤ c.sockfd ∧ c.tout = 0) ∧
    (self.sockfd < 0 → (self.accept env tr).ret = none ∧ (self.accept env tr).evs = []) ∧
    (env.sys tr (.accept self.sockfd) < 0 → (self.accept env tr).ret = none) := by
  have hlow := hacc tr self.sockfd
  by_cases hs : self.sockfd < 0
  · simp [CTcpServer.accept, hs, not_le.mpr hs]
  · have hv : 0 ≤ self.sockfd := not_lt.mp hs
    by_cases ha : env.sys tr (.accept self.sockfd) = -1
    · simp [CTcpServer.accept, hs, ha]
    · have hpos : 0 ≤ env.sys tr (.accept self.sockfd) := by omega
      refine ⟨?_, ?_, ?_, ?_⟩
      · simp [CTcpServer.accept, hs, ha, hv, hpos]
      · intro c hc
        simp only [CTcpServer.accept, hs, ha, if_false, Option.some.injEq] at hc
        subst hc
        exact ⟨rfl, hpos, rfl⟩
      · intro h
        exact absurd h hs
      · intro h
        exact absurd hpos (not_le.mpr h)

/-- Instance of C4: on a listener with descriptor 3 whose `accept` call answers 4 the handle
returned owns descriptor 4 with timeout 0; when the call answers -1 the result is absent; on a
listener with descriptor -1 the result is absent and nothing is issued. -/
theorem accept_handle_iff_witness :
    (CTcpServer.accept envShort [] ⟨3, 0⟩).ret = some ⟨4, 0⟩ ∧
    ((CTcpConn.mk 4 0).sockfd = envShort.sys [] (.accept 3) ∧ 0 ≤ (CTcpConn.mk 4 0).sockfd ∧
      (CTcpConn.mk 4 0).tout = 0) ∧
    envExhausted.sys [] (.accept 3) < 0 ∧
    (CTcpServer.accept envExhausted [] ⟨3, 0⟩).ret = none ∧
    (CTcpServer.mk (-1) 0).sockfd < 0 ∧
    ((CTcpServer.accept envShort [] ⟨-1, 0⟩).ret = none ∧
      (CTcpServer.accept envShort [] ⟨-1, 0⟩).evs = []) :=
  ⟨by decide,
    (accept_handle_iff envShort [] ⟨3, 0⟩ (fun _ _ => by simp [envShort, envConst])).2.1 ⟨4, 0⟩ (by decide),
    by decide,
    (accept_handle_iff envExhausted [] ⟨3, 0⟩
      (fun _ _ => by simp [envExhausted, envConst])).2.2.2 (by decide),
    by decide,
    (accept_handle_iff envShort [] ⟨-1, 0⟩ (fun _ _ => by simp [envShort, envConst])).2.2.1 (by decide)⟩

/-- C9 fails on descriptor 0: `listen()` on a fresh listener obtains descriptor 0 from `socket`,
binds and listens on it and stores it; `accept()` treats the stored 0 as valid and issues the
`accept` call on it; `stop()` issues no `close` at all and the descriptor stays stored. -/
theorem stop_skips_descriptor_zero :
    (CTcpServer.listen envZero [] CTcpServer.ctor 8080 4).ret = 0 ∧
    (CTcpServer.listen envZero [] CTcpServer.ctor 8080 4).self = ⟨0, 0⟩ ∧
    (CTcpServer.accept envZero [] ⟨0, 0⟩).evs = [(.accept 0, 0)] ∧
    (CTcpServer.stop envZero [] ⟨0, 0⟩).evs = [] ∧
    (CTcpServer.stop envZero [] ⟨0, 0⟩).self = ⟨0, 0⟩ := by
  decide

/-- C10: `accept()` and `stop()` leave the listener (descriptor and timeout field) exactly as it
was, whatever the socket calls answer; so after `stop()` on a listener with a positive
descriptor the stored value is still that descriptor, the first `stop()` issued `close` on it,
a second `stop()` (after any history) issues `close` on it again, and an `accept()` (after any
history) on the stopped listener issues the `accept` call on that descriptor. -/
theorem listener_frame (env : Env) (tr : Trace) (self : CTcpServer) :
    (self.accept env tr).self = self ∧
    (self.stop env tr).self = self ∧
    (0 < self.sockfd →
      (self.stop env tr).self.sockfd = self.sockfd ∧
      (self.stop env tr).evs = [(.close self.sockfd, env.sys tr (.close self.sockfd))] ∧
      (∀ tr2 : Trace, ((self.stop env tr).self.stop env tr2).evs =
        [(.close self.sockfd, env.sys tr2 (.close self.sockfd))]) ∧
      (∀ tr3 : Trace, ((self.stop env tr).self.accept env tr3).evs =
        [(.accept self.sockfd, env.sys tr3 (.accept self.sockfd))])) := by
  have hstop : (self.stop env tr).self = self := by
    unfold CTcpServer.stop
    split <;> rfl
  have hacc : ∀ t, (self.accept env t).self = self := by
    intro t
    unfold CTcpServer.accept
    split
    · rfl
    · dsimp only
      split <;> rfl
  refine ⟨hacc tr, hstop, ?_⟩
  intro hp
  have hn : ¬ self.sockfd < 0 := not_lt.mpr (le_of_lt hp)
  rw [hstop]
  refine ⟨rfl, ?_, ?_, ?_⟩
  · simp [CTcpServer.stop, hp]
  · intro tr2
    simp [CTcpServer.stop, hp]
  · intro tr3
    unfold CTcpServer.accept
    rw [if_neg hn]
    dsimp only
    split <;> rfl

/-- Instance of C10 on descriptor 3: the first `stop()` closes 3 and leaves 3 stored, the second
`stop()` closes 3 again, and the following `accept()` issues the `accept` call on 3. -/
theorem listener_frame_witness :
    (0 : Int) < (CTcpServer.mk 3 0).sockfd ∧
    (CTcpServer.stop envShort [] ⟨3, 0⟩).self.sockfd = 3 ∧
    (CTcpServer.stop envShort [] ⟨3, 0⟩).evs = [(.close 3, 0)] ∧
    (CTcpServer.stop envShort [(.close 3, 0)] (CTcpServer.stop envShort [] ⟨3, 0⟩).self).evs
      = [(.close 3, 0)] ∧
    (CTcpServer.accept envShort [(.close 3, 0), (.close 3, 0)]
      (CTcpServer.stop envShort [] ⟨3, 0⟩).self).evs = [(.accept 3, 4)] :=
  ⟨by decide,
    ((listener_frame envShort [] ⟨3, 0⟩).2.2 (by decide)).1,
    ((listener_frame envShort [] ⟨3, 0⟩).2.2 (by decide)).2.1,
    ((listener_frame envShort [] ⟨3, 0⟩).2.2 (by decide)).2.2.1 [(.close 3, 0)],
    ((listener_frame envShort [] ⟨3, 0⟩).2.2 (by decide)).2.2.2 [(.close 3, 0), (.close 3, 0)]⟩

/-! ## Listener handle: listen -/

/-- C3: `listen()` returns 0 exactly when the descriptor after the creation step is
non-negative (a stored non-negative descriptor, or a `socket` call that answered one), `bind`
answered 0 and the `listen` call answered 0; then the stored descriptor is that non-negative
descriptor, on which `bind` and `listen` were issued.  In every other case `listen()` returns
-1 and the stored descriptor is negative: after a failed `socket` nothing else is issued, and
after a failed `bind` or a failed `listen` call the last call issued is `close` on the
descriptor. -/
theorem listen_result (env : Env) (tr : Trace) (self : CTcpServer) (port : Nat)
    (backlog : Int) :
    ((self.listen env tr port backlog).ret = 0 ↔
      0 ≤ created_fd env tr self.sockfd ∧ bind_answer env tr self port = 0 ∧
      listen_answer env tr self port backlog = 0) ∧
    ((self.listen env tr port backlog).ret = 0 →
      (self.listen env tr port backlog).self.sockfd = created_fd env tr self.sockfd ∧
      0 ≤ (self.listen env tr port backlog).self.sockfd ∧
      (self.listen env tr port backlog).evs = created_evs env tr self.sockfd ++
        [(bind_call env tr self port, 0), (listen_call env tr self backlog, 0)]) ∧
    ((self.listen env tr port backlog).ret ≠ 0 →
      (self.listen env tr port backlog).ret = -1 ∧
      (self.listen env tr port backlog).self.sockfd < 0) ∧
    (created_fd env tr self.sockfd < 0 →
      (self.listen env tr port backlog).evs = created_evs env tr self.sockfd) ∧
    (0 ≤ created_fd env tr self.sockfd → bind_answer env tr self port ≠ 0 →
      ∃ rc, (self.listen env tr port backlog).evs = created_evs env tr self.sockfd ++
        [(bind_call env tr self port, bind_answer env tr self port),
         (.close (created_fd env tr self.sockfd), rc)]) ∧
    (0 ≤ created_fd env tr self.sockfd → bind_answer env tr self port = 0 →
      listen_answer env tr self port backlog ≠ 0 →
      ∃ rc, (self.listen env tr port backlog).evs = created_evs env tr self.sockfd ++
        [(bind_call env tr self port, 0),
         (listen_call env tr self backlog, listen_answer env tr self port backlog),
         (.close (created_fd env tr self.sockfd), rc)]) := by
  by_cases hs : self.sockfd < 0
  · by_cases hf : env.sys tr Call.socket < 0
    · simp [CTcpServer.listen, created_fd, created_evs, hs, hf, not_le.mpr hf]
    · have hv : 0 ≤ env.sys tr Call.socket := not_lt.mp hf
      by_cases hb : env.sys (tr ++ [(Call.socket, env.sys tr Call.socket)])
          (Call.bind (env.sys tr Call.socket) (listen_addr env port)) = 0
      · by_cases hl : env.sys (tr ++ [(Call.socket, env.sys tr Call.socket)] ++
            [(Call.bind (env.sys tr Call.socket) (listen_addr env port), 0)])
            (Call.listen (env.sys tr Call.socket) backlog) = 0
        · simp [CTcpServer.listen, CTcpServer.listen_bind, created_fd, created_evs, bind_answer,
            listen_answer, bind_call, listen_call, listen_addr, hs, hf, hv] at hb hl ⊢
          simp [hb, hl, hv]
        · simp [CTcpServer.listen, CTcpServer.listen_bind, created_fd, created_evs, bind_answer,
            listen_answer, bind_call, listen_call, listen_addr, hs, hf, hv] at hb hl ⊢
          simp [hb, hl]
      · simp [CTcpServer.listen, CTcpServer.listen_bind, created_fd, created_evs, bind_answer,
          listen_answer, bind_call, listen_call, listen_addr, hs, hf, hv] at hb ⊢
        simp [hb]
  · have hv : 0 ≤ self.sockfd := not_lt.mp hs
    by_cases hb : env.sys tr (Call.bind self.sockfd (listen_addr env port)) = 0
    · by_cases hl : env.sys (tr ++ [(Call.bind self.sockfd (listen_addr env port), 0)])
          (Call.listen self.sockfd backlog) = 0
      · simp [CTcpServer.listen, CTcpServer.listen_bind, created_fd, created_evs, bind_answer,
          listen_answer, bind_call, listen_call, listen_addr, hs, hv] at hb hl ⊢
        simp [hb, hl, hv]
      · simp [CTcpServer.listen, CTcpServer.listen_bind, created_fd, created_evs, bind_answer,
          listen_answer, bind_call, listen_call, listen_addr, hs, hv] at hb hl ⊢
        simp [hb, hl]
    · simp [CTcpServer.listen, CTcpServer.listen_bind, created_fd, created_evs, bind_answer,
        listen_answer, bind_call, listen_call, listen_addr, hs, hv] at hb ⊢
      simp [hb]

/-- Instance of C3 on a fresh listener: with a healthy socket layer `listen()` returns 0 and
stores the descriptor 3 it created, bound and listened on; when `bind` fails it returns -1,
stores a negative descriptor and the last call is `close` on descriptor 3. -/
theorem listen_result_witness :
    ((CTcpServer.listen envShort [] CTcpServer.ctor 8080 4).ret = 0 ∧
      (CTcpServer.listen envShort [] CTcpServer.ctor 8080 4).self.sockfd = 3 ∧
      0 ≤ (CTcpServer.listen envShort [] CTcpServer.ctor 8080 4).self.sockfd ∧
      (CTcpServer.listen envShort [] CTcpServer.ctor 8080 4).evs =
        [(.socket, 3), (.bind 3 (listen_addr envShort 8080), 0), (.listen 3 4, 0)]) ∧
    ((CTcpServer.listen envDown [] CTcpServer.ctor 8080 4).ret = -1 ∧
      (CTcpServer.listen envDown [] CTcpServer.ctor 8080 4).self.sockfd < 0) ∧
    (∃ rc, (CTcpServer.listen envDown [] CTcpServer.ctor 8080 4).evs =
        [(.socket, 3), (.bind 3 (listen_addr envDown 8080), -1), (.close 3, rc)]) :=
  ⟨⟨by decide, (listen_result envShort [] CTcpServer.ctor 8080 4).2.1 (by decide)⟩,
    (listen_result envDown [] CTcpServer.ctor 8080 4).2.2.1 (by decide),
    (listen_result envDown [] CTcpServer.ctor 8080 4).2.2.2.2.1 (by decide) (by decide)⟩

/-! ## Connection handle: connect -/

/-- The calls issued and the values left by both `connect` overloads, for every socket
layer: when the `connect` call answers a negative value it is returned, `close` follows
on the descriptor used and -1 is stored; when it answers a non-negative value it is
returned, nothing else is issued and the descriptor used stays stored. -/
theorem connect_steps (env : Env) (tr : Trace) (self : CTcpConn) (ip : String) (ip32 : Nat)
    (port : Nat) :
    (0 < (env.inet_pton ip).1 →
      (connect_answer env tr self port (env.inet_pton ip).2 < 0 →
        (self.connect env tr ip port).ret = connect_answer env tr self port (env.inet_pton ip).2 ∧
        (self.connect env tr ip port).self.sockfd = -1 ∧
        ∃ rc, (self.connect env tr ip port).evs = created_evs env tr self.sockfd ++
          [(connect_call env tr self port (env.inet_pton ip).2,
            connect_answer env tr self port (env.inet_pton ip).2),
           (.close (created_fd env tr self.sockfd), rc)]) ∧
      (0 ≤ connect_answer env tr self port (env.inet_pton ip).2 →
        (self.connect env tr ip port).ret = connect_answer env tr self port (env.inet_pton ip).2 ∧
        (self.connect env tr ip port).self.sockfd = created_fd env tr self.sockfd ∧
        (self.connect env tr ip port).evs = created_evs env tr self.sockfd ++
          [(connect_call env tr self port (env.inet_pton ip).2,
            connect_answer env tr self port (env.inet_pton ip).2)] ∧
        (0 ≤ self.sockfd ∨ 0 ≤ env.sys tr Call.socket →
          0 ≤ (self.connect env tr ip port).self.sockfd))) ∧
    ((connect_answer env tr self port ip32 < 0 →
        (self.connect_uint32 env tr ip32 port).ret = connect_answer env tr self port ip32 ∧
        (self.connect_uint32 env tr ip32 port).self.sockfd = -1 ∧
        ∃ rc, (self.connect_uint32 env tr ip32 port).evs = created_evs env tr self.sockfd ++
          [(connect_call env tr self port ip32, connect_answer env tr self port ip32),
           (.close (created_fd env tr self.sockfd), rc)]) ∧
      (0 ≤ connect_answer env tr self port ip32 →
        (self.connect_uint32 env tr ip32 port).ret = connect_answer env tr self port ip32 ∧
        (self.connect_uint32 env tr ip32 port).self.sockfd = created_fd env tr self.sockfd ∧
        (self.connect_uint32 env tr ip32 port).evs = created_evs env tr self.sockfd ++
          [(connect_call env tr self port ip32, connect_answer env tr self port ip32)] ∧
        (0 ≤ self.sockfd ∨ 0 ≤ env.sys tr Call.socket →
          0 ≤ (self.connect_uint32 env tr ip32 port).self.sockfd))) := by
  by_cases hs : self.sockfd < 0
  · refine ⟨fun hp => ⟨fun hr => ?_, fun hr => ?_⟩, fun hr => ?_, fun hr => ?_⟩
    · simp only [connect_answer, connect_call, connect_addr, created_fd, created_evs, hs,
        if_true] at hr
      simp [CTcpConn.connect, connect_answer, connect_call, connect_addr, created_fd,
        created_evs, hs, not_le.mpr hp, hr]
    · simp only [connect_answer, connect_call, connect_addr, created_fd, created_evs, hs,
        if_true] at hr
      simp [CTcpConn.connect, connect_answer, connect_call, connect_addr, created_fd,
        created_evs, hs, not_le.mpr hp, not_lt.mpr hr, not_le.mpr hs]
    · simp only [connect_answer, connect_call, connect_addr, created_fd, created_evs, hs,
        if_true] at hr
      simp [CTcpConn.connect_uint32, connect_answer, connect_call, connect_addr, created_fd,
        created_evs, hs, hr]
    · simp only [connect_answer, connect_call, connect_addr, created_fd, created_evs, hs,
        if_true] at hr
      simp [CTcpConn.connect_uint32, connect_answer, connect_call, connect_addr, created_fd,
        created_evs, hs, not_lt.mpr hr, not_le.mpr hs]
  · have hv : 0 ≤ self.sockfd := not_lt.mp hs
    refine ⟨fun hp => ⟨fun hr => ?_, fun hr => ?_⟩, fun hr => ?_, fun hr => ?_⟩
    · simp only [connect_answer, connect_call, connect_addr, created_fd, created_evs, hs,
        if_false, List.append_nil] at hr
      simp [CTcpConn.connect, connect_answer, connect_call, connect_addr, created_fd,
        created_evs, hs, not_le.mpr hp, hr]
    · simp only [connect_answer, connect_call, connect_addr, created_fd, created_evs, hs,
        if_false, List.append_nil] at hr
      simp [CTcpConn.connect, connect_answer, connect_call, connect_addr, created_fd,
        created_evs, hs, not_le.mpr hp, not_lt.mpr hr, hv]
    · simp only [connect_answer, connect_call, connect_addr, created_fd, created_evs, hs,
        if_false, List.append_nil] at hr
      simp [CTcpConn.connect_uint32, connect_answer, connect_call, connect_addr, created_fd,
        created_evs, hs, hr]
    · simp only [connect_answer, connect_call, connect_addr, created_fd, created_evs, hs,
        if_false, List.append_nil] at hr
      simp [CTcpConn.connect_uint32, connect_answer, connect_call, connect_addr, created_fd,
        created_evs, hs, not_lt.mpr hr, hv]

/-- C1: on a socket layer whose `connect` call fails (answers a negative value) whenever its
descriptor argument is negative, for both `connect` overloads (for the textual one, whenever
`inet_pton` answers a positive code, so that the `connect` call is issued): when the `connect`
call answers a negative value, `connect()` returns that value, the next and last call is
`close` on the descriptor used, and the stored descriptor is -1; when it answers a
non-negative value, `connect()` returns it, nothing else is issued and the stored descriptor
is the descriptor used for the call, which is valid (non-negative). -/
theorem connect_result (env : Env) (tr : Trace) (self : CTcpConn) (ip : String) (ip32 : Nat)
    (port : Nat)
    (hconn : ∀ (t : Trace) (s : Int) (name : sockaddr_in),
      s < 0 → env.sys t (Call.connect s name) < 0) :
    (0 < (env.inet_pton ip).1 →
      (connect_answer env tr self port (env.inet_pton ip).2 < 0 →
        (self.connect env tr ip port).ret = connect_answer env tr self port (env.inet_pton ip).2 ∧
        (self.connect env tr ip port).self.sockfd = -1 ∧
        ∃ rc, (self.connect env tr ip port).evs = created_evs env tr self.sockfd ++
          [(connect_call env tr self port (env.inet_pton ip).2,
            connect_answer env tr self port (env.inet_pton ip).2),
           (.close (created_fd env tr self.sockfd), rc)]) ∧
      (0 ≤ connect_answer env tr self port (env.inet_pton ip).2 →
        (self.connect env tr ip port).ret = connect_answer env tr self port (env.inet_pton ip).2 ∧
        (self.connect env tr ip port).self.sockfd = created_fd env tr self.sockfd ∧
        0 ≤ (self.connect env tr ip port).self.sockfd ∧
        (self.connect env tr ip port).evs = created_evs env tr self.sockfd ++
          [(connect_call env tr self port (env.inet_pton ip).2,
            connect_answer env tr self port (env.inet_pton ip).2)])) ∧
    ((connect_answer env tr self port ip32 < 0 →
        (self.connect_uint32 env tr ip32 port).ret = connect_answer env tr self port ip32 ∧
        (self.connect_uint32 env tr ip32 port).self.sockfd = -1 ∧
        ∃ rc, (self.connect_uint32 env tr ip32 port).evs = created_evs env tr self.sockfd ++
          [(connect_call env tr self port ip32, connect_answer env tr self port ip32),
           (.close (created_fd env tr self.sockfd), rc)]) ∧
      (0 ≤ connect_answer env tr self port ip32 →
        (self.connect_uint32 env tr ip32 port).ret = connect_answer env tr self port ip32 ∧
        (self.connect_uint32 env tr ip32 port).self.sockfd = created_fd env tr self.sockfd ∧
        0 ≤ (self.connect_uint32 env tr ip32 port).self.sockfd ∧
        (self.connect_uint32 env tr ip32 port).evs = created_evs env tr self.sockfd ++
          [(connect_call env tr self port ip32, connect_answer env tr self port ip32)])) := by
  have hfd : ∀ addr, 0 ≤ connect_answer env tr self port addr →
      0 ≤ created_fd env tr self.sockfd := by
    intro addr hr
    by_contra hneg
    have hfail : connect_answer env tr self port addr < 0 :=
      hconn (tr ++ created_evs env tr self.sockfd) (created_fd env tr self.sockfd)
        (connect_addr env port addr) (not_le.mp hneg)
    exact absurd hr (not_le.mpr hfail)
  obtain ⟨htext, hbin⟩ := connect_steps env tr self ip ip32 port
  refine ⟨fun hp => ⟨(htext hp).1, fun hr => ?_⟩, hbin.1, fun hr => ?_⟩
  · obtain ⟨h1, h2, h3, _⟩ := (htext hp).2 hr
    exact ⟨h1, h2, h2 ▸ hfd _ hr, h3⟩
  · obtain ⟨h1, h2, h3, _⟩ := hbin.2 hr
    exact ⟨h1, h2, h2 ▸ hfd _ hr, h3⟩

/-- Instance of C1: a handle without descriptor connects to a refusing peer: descriptor 3 is
created, the `connect` call on it answers -1, `connect()` returns -1, closes 3 and stores -1.
With a listening peer the binary overload returns 0 and keeps the valid descriptor 3. -/
theorem connect_result_witness :
    0 < (envRefused.inet_pton "127.0.0.1").1 ∧
    ((CTcpConn.connect envRefused [] ⟨-1, 0⟩ "127.0.0.1" 80).ret = -1 ∧
      (CTcpConn.connect envRefused [] ⟨-1, 0⟩ "127.0.0.1" 80).self.sockfd = -1 ∧
      ∃ rc, (CTcpConn.connect envRefused [] ⟨-1, 0⟩ "127.0.0.1" 80).evs =
        [(.socket, 3), (.connect 3 (connect_addr envRefused 80 16777343), -1),
         (.close 3, rc)]) ∧
    ((CTcpConn.connect_uint32 envPeer [] ⟨-1, 0⟩ 16777343 80).ret = 0 ∧
      (CTcpConn.connect_uint32 envPeer [] ⟨-1, 0⟩ 16777343 80).self.sockfd = 3 ∧
      0 ≤ (CTcpConn.connect_uint32 envPeer [] ⟨-1, 0⟩ 16777343 80).self.sockfd ∧
      (CTcpConn.connect_uint32 envPeer [] ⟨-1, 0⟩ 16777343 80).evs =
        [(.socket, 3), (.connect 3 (connect_addr envPeer 80 16777343), 0)]) :=
  ⟨by decide,
    ((connect_result envRefused [] ⟨-1, 0⟩ "127.0.0.1" 16777343 80
      (fun _ _ _ _ => by simp [envRefused, envConst])).1 (by decide)).1 (by decide),
    (connect_result envPeer [] ⟨-1, 0⟩ "127.0.0.1" 16777343 80
      (fun _ s _ h => by simp [envPeer, envConst, h])).2.2 (by decide)⟩

/-- C7 fails on an address text that does not parse: `inet_pton` answers 0 for it, `connect()`
logs the error and returns that 0 although no `connect` call was issued (the only call is the
`socket` call that created descriptor 3, which stays stored). -/
theorem connect_unparsable_returns_zero :
    (envStrict.inet_pton "not-an-ip").1 = 0 ∧
    (CTcpConn.connect envStrict [] ⟨-1, 0⟩ "not-an-ip" 80).ret = 0 ∧
    ¬ (CTcpConn.connect envStrict [] ⟨-1, 0⟩ "not-an-ip" 80).ret < 0 ∧
    (CTcpConn.connect envStrict [] ⟨-1, 0⟩ "not-an-ip" 80).evs = [(.socket, 3)] ∧
    (CTcpConn.connect envStrict [] ⟨-1, 0⟩ "not-an-ip" 80).self = ⟨3, 0⟩ := by
  decide

/-! ## Descriptor arguments of the calls issued -/

/-- C8 as stated fails: `disconnect()` on a handle whose stored descriptor is -1 issues
`close(-1)`. -/
theorem disconnect_closes_negative_fd :
    (CTcpConn.disconnect envShort [] ⟨-1, 0⟩).evs = [(.close (-1), 0)] ∧
    no_negative_fd (CTcpConn.disconnect envShort [] ⟨-1, 0⟩).evs = false := by
  decide

/-- The unguarded creation step of `connect`: when the handle has no descriptor and `socket`
fails with -1, both overloads go on to issue `connect` and then `close` on descriptor -1. -/
theorem connect_after_failed_socket :
    (CTcpConn.connect envExhausted [] ⟨-1, 0⟩ "127.0.0.1" 80).evs =
      [(.socket, -1), (.connect (-1) (connect_addr envExhausted 80 16777343), -1),
       (.close (-1), -1)] ∧
    (CTcpConn.connect_uint32 envExhausted [] ⟨-1, 0⟩ 16777343 80).evs =
      [(.socket, -1), (.connect (-1) (connect_addr envExhausted 80 16777343), -1),
       (.close (-1), -1)] := by
  decide

/-- C8 (amended): `set_timeout`, `read`, `write`, `listen`, `accept` and `stop` never issue a
call with a negative descriptor argument, in any state; the `connect` overloads issue none
when the handle already holds a non-negative descriptor or the `socket` call answers one;
`disconnect` does not look at the stored descriptor: it issues exactly `close` on it. -/
theorem guarded_calls_no_negative_fd (env : Env) (tr : Trace) (c : CTcpConn)
    (l : CTcpServer) (ip : String) (ip32 port : Nat) (data : List Nat)
    (length timeout backlog : Int) :
    no_negative_fd (c.set_timeout env tr timeout).evs = true ∧
    no_negative_fd (c.read env tr length timeout).evs = true ∧
    no_negative_fd (c.write env tr data length).evs = true ∧
    no_negative_fd (l.listen env tr port backlog).evs = true ∧
    no_negative_fd (l.accept env tr).evs = true ∧
    no_negative_fd (l.stop env tr).evs = true ∧
    (0 ≤ c.sockfd ∨ 0 ≤ env.sys tr Call.socket →
      no_negative_fd (c.connect env tr ip port).evs = true ∧
      no_negative_fd (c.connect_uint32 env tr ip32 port).evs = true) ∧
    (c.disconnect env tr).evs = [(.close c.sockfd, env.sys tr (.close c.sockfd))] := by
  have hset : no_negative_fd (c.set_timeout env tr timeout).evs = true := by
    unfold CTcpConn.set_timeout
    split
    · rfl
    · rename_i h
      dsimp only
      split <;> simp [no_negative_fd, Call.fd, not_lt.mp h]
  refine ⟨hset, ?_, ?_, ?_, ?_, ?_, ?_, rfl⟩
  · by_cases hs : c.sockfd < 0
    · simp [CTcpConn.read, hs, no_negative_fd]
    · have hv := not_lt.mp hs
      by_cases ht : 0 < timeout
      · by_cases hr : env.sys tr (.setsockopt c.sockfd timeout) < 0
        · simp [CTcpConn.read, CTcpConn.set_timeout, hs, ht, hr, no_negative_fd, Call.fd, hv]
        · simp [CTcpConn.read, CTcpConn.set_timeout, hs, ht, hr, no_negative_fd, Call.fd, hv]
      · simp [CTcpConn.read, hs, ht, no_negative_fd, Call.fd, hv]
  · unfold CTcpConn.write
    split
    · rfl
    · rename_i h
      dsimp only
      split <;> simp [no_negative_fd, Call.fd, not_lt.mp h]
  · by_cases hs : l.sockfd < 0
    · by_cases hf : env.sys tr Call.socket < 0
      · simp [CTcpServer.listen, hs, hf, no_negative_fd, Call.fd]
      · have hv := not_lt.mp hf
        simp only [CTcpServer.listen, CTcpServer.listen_bind, hs, hf, if_true, if_false]
        split
        · simp [no_negative_fd, Call.fd, hv]
        · split <;> simp [no_negative_fd, Call.fd, hv]
    · have hv := not_lt.mp hs
      simp only [CTcpServer.listen, CTcpServer.listen_bind, hs, if_false]
      split
      · simp [no_negative_fd, Call.fd, hv]
      · split <;> simp [no_negative_fd, Call.fd, hv]
  · unfold CTcpServer.accept
    split
    · rfl
    · rename_i h
      dsimp only
      split <;> simp [no_negative_fd, Call.fd, not_lt.mp h]
  · unfold CTcpServer.stop
    split
    · rename_i h
      simp [no_negative_fd, Call.fd, le_of_lt h]
    · rfl
  · intro hor
    by_cases hs : c.sockfd < 0
    · have hv : 0 ≤ env.sys tr Call.socket := by
        rcases hor with h | h
        · exact absurd hs (not_lt.mpr h)
        · exact h
      constructor
      · simp only [CTcpConn.connect, hs, if_true]
        split
        · simp [no_negative_fd, Call.fd]
        · split <;> simp [no_negative_fd, Call.fd, hv]
      · simp only [CTcpConn.connect_uint32, hs, if_true]
        split <;> simp [no_negative_fd, Call.fd, hv]
    · have hv := not_lt.mp hs
      constructor
      · simp only [CTcpConn.connect, hs, if_false]
        split
        · simp [no_negative_fd]
        · split <;> simp [no_negative_fd, Call.fd, hv]
      · simp only [CTcpConn.connect_uint32, hs, if_false]
        split <;> simp [no_negative_fd, Call.fd, hv]

/-- Instance of C8 (amended): a handle without descriptor connects on a socket layer whose
`socket` answers 3; neither overload issues a call with a negative descriptor argument. -/
theorem guarded_calls_no_negative_fd_witness :
    ((0 : Int) ≤ (CTcpConn.mk (-1) 0).sockfd ∨ 0 ≤ envRefused.sys [] Call.socket) ∧
    no_negative_fd (CTcpConn.connect envRefused [] ⟨-1, 0⟩ "127.0.0.1" 80).evs = true ∧
    no_negative_fd (CTcpConn.connect_uint32 envRefused [] ⟨-1, 0⟩ 16777343 80).evs = true :=
  ⟨by decide,
    (guarded_calls_no_negative_fd envRefused [] ⟨-1, 0⟩ ⟨3, 0⟩ "127.0.0.1" 16777343 80 [] 0 0
      4).2.2.2.2.2.2.1 (by decide)⟩

end IotTcp
